import Mathlib

/-!
Shallow embedding of the accessor adaptation layer of this repository:

* `nucleifs` writer (`src/core/src/services/nucleifs/writer.rs`): the
  `AsyncFsWriter` with its `oio::Write` (suspension-capable) and
  `oio::BlockingWrite` (blocking) implementations, including the
  staging-file atomic-commit protocol.
* `nucleifs` reader (`src/core/src/services/nucleifs/reader.rs`).
* `nucleifs` lister (`src/core/src/services/nucleifs/lister.rs`).
* `gcs` writer (`src/core/src/services/gcs/writer.rs`).

Underlying I/O primitives (file write/flush/sync, rename, remove,
directory enumeration, HTTP send) live outside the embedded code; their
outcomes are supplied by explicit environment records so that every code
path of the embedded functions can be exercised.
-/

namespace Spec2Proof

/-! ## Error taxonomy (`crate::Error`, `ErrorKind`) -/

/-- The error kinds this layer's code uses (`ErrorKind` in the source). -/
inductive ErrKind
  | ConfigInvalid
  | Unexpected
  | Unsupported
  | Parsed
deriving DecidableEq, Repr

/-- A low-level I/O failure (`std::io::Error`), identified by a code. -/
structure IoError where
  code : Nat
deriving DecidableEq, Repr

/-- The layer's error value (`crate::Error`): a kind and a message, plus
the diagnostic operation name and context pairs added by
`with_operation` / `with_context`. -/
structure Err where
  kind : ErrKind
  message : String
  operation : Option String := none
  context : List (String × String) := []
deriving DecidableEq, Repr

deriving instance DecidableEq for Except

/-- Source `new_std_io_error`: wrap an underlying I/O failure as an
`Unexpected` layer error. -/
def new_std_io_error (e : IoError) : Err :=
  { kind := .Unexpected, message := toString e.code }

/-- Source `Error::with_operation`. -/
def Err.with_operation (e : Err) (op : String) : Err :=
  { e with operation := some op }

/-- Source `Error::with_context`. -/
def Err.with_context (e : Err) (k v : String) : Err :=
  { e with context := e.context ++ [(k, v)] }

/-! ## `nucleifs` writer (`AsyncFsWriter`)

The handle holds the target path and an optional staging (`tmp`) path;
the open file `f` is the staging file when `tmp_path` is set, otherwise
the target file itself. Backing-store state is `FsState`; primitive
outcomes come from `WEnv`. -/

/-- The writer handle's configuration (`AsyncFsWriter` fields; the open
file's state lives in `FsState`). -/
structure AsyncFsWriter where
  target_path : String
  tmp_path : Option String
deriving DecidableEq, Repr

/-- Backing-store state seen by one writer handle: content of the
staging file (if it exists), content at the target path (if present),
and bytes accepted by the handle but not yet flushed into the open
file. -/
structure FsState where
  tmp : Option (List Nat)
  target : Option (List Nat)
  buffered : List Nat
deriving DecidableEq, Repr

/-- One primitive I/O step attempted by the writer. -/
inductive WStep
  | flush
  | sync
  | rename
  | removeFile
deriving DecidableEq, Repr

/-- Outcomes of the underlying I/O primitives (`none` = success). The
`writeRes` field gives, for an input length, the underlying
`AsyncWrite::write` outcome: an error or the number of bytes accepted. -/
structure WEnv where
  flushRes : Option IoError
  syncRes : Option IoError
  renameRes : Option IoError
  removeRes : Option IoError
  writeRes : Nat → Except IoError Nat

/-- The file the handle is open on: staging file when `tmp_path` is
configured, otherwise the target file. -/
def openFileOf (w : AsyncFsWriter) (s : FsState) : Option (List Nat) :=
  match w.tmp_path with
  | some _ => s.tmp
  | none => s.target

/-- Effect of a successful `flush`: buffered bytes reach the open
file. -/
def flushStep (w : AsyncFsWriter) (s : FsState) : FsState :=
  match w.tmp_path with
  | some _ => { s with tmp := some (s.tmp.getD [] ++ s.buffered), buffered := [] }
  | none => { s with target := some (s.target.getD [] ++ s.buffered), buffered := [] }

/-- Effect of a successful `fs::rename(tmp_path, target_path)`: the
staging file's content moves to the target path. -/
def renameStep (s : FsState) : FsState :=
  { s with target := s.tmp, tmp := none }

/-- Source `oio::Write::write` for `AsyncFsWriter`: one underlying
`f.write(&bs)` whose count is returned as-is; accepted bytes join the
handle's unflushed data. -/
def writeAsync (env : WEnv) (w : AsyncFsWriter) (s : FsState) (bs : List Nat) :
    Except Err Nat × FsState :=
  match env.writeRes bs.length with
  | .error e => (.error (new_std_io_error e), s)
  | .ok n => (.ok n, { s with buffered := s.buffered ++ bs.take n })

/-- Source `oio::BlockingWrite::write` for `AsyncFsWriter`: `block_on` of the
same underlying `f.write(&bs)`. -/
def writeBlocking (env : WEnv) (w : AsyncFsWriter) (s : FsState) (bs : List Nat) :
    Except Err Nat × FsState :=
  match env.writeRes bs.length with
  | .error e => (.error (new_std_io_error e), s)
  | .ok n => (.ok n, { s with buffered := s.buffered ++ bs.take n })

/-- Source `oio::Write::close` for `AsyncFsWriter`: `f.flush()`, then
`f.sync_all()`, then — when a staging path is configured —
`fs::rename(tmp_path, target_path)`. Returns the call's result, the
resulting backing-store state, and the ordered list of primitive steps
attempted. -/
def closeAsync (env : WEnv) (w : AsyncFsWriter) (s : FsState) :
    Except Err Unit × FsState × List WStep :=
  match env.flushRes with
  | some e => (.error (new_std_io_error e), s, [.flush])
  | none =>
    let s1 := flushStep w s
    match env.syncRes with
    | some e => (.error (new_std_io_error e), s1, [.flush, .sync])
    | none =>
      match w.tmp_path with
      | some _ =>
        match env.renameRes with
        | some e => (.error (new_std_io_error e), s1, [.flush, .sync, .rename])
        | none => (.ok (), renameStep s1, [.flush, .sync, .rename])
      | none => (.ok (), s1, [.flush, .sync])

/-- Source `oio::BlockingWrite::close` for `AsyncFsWriter`: `f.sync_all()`,
then — when a staging path is configured — `std::fs::rename`. No flush
is performed. -/
def closeBlocking (env : WEnv) (w : AsyncFsWriter) (s : FsState) :
    Except Err Unit × FsState × List WStep :=
  match env.syncRes with
  | some e => (.error (new_std_io_error e), s, [.sync])
  | none =>
    match w.tmp_path with
    | some _ =>
      match env.renameRes with
      | some e => (.error (new_std_io_error e), s, [.sync, .rename])
      | none => (.ok (), renameStep s, [.sync, .rename])
    | none => (.ok (), s, [.sync])

/-- Source `oio::Write::abort` for `AsyncFsWriter`: with a staging path,
`fs::remove_file(tmp_path)`; without one, an `Unsupported` error. -/
def abortWriter (env : WEnv) (w : AsyncFsWriter) (s : FsState) :
    Except Err Unit × FsState × List WStep :=
  match w.tmp_path with
  | some _ =>
    match env.removeRes with
    | some e => (.error (new_std_io_error e), s, [.removeFile])
    | none => (.ok (), { s with tmp := none }, [.removeFile])
  | none =>
    (.error { kind := .Unsupported,
              message := "NucleiFs doesn't support abort if atomic_write_dir is not set" },
     s, [])

/-! ## `nucleifs` reader (`AsyncFsReader`)

The handle owns the open file (modelled by its byte content and the
current offset) and a scratch `Vec<u8>` whose length is always 0, so
only its capacity matters. The underlying `AsyncRead::read` outcome is
supplied as a function from the passed slice's length to an error or a
byte count. -/

/-- Handle `AsyncFsReader`: open-file content and offset, plus the scratch
buffer's capacity (its length stays 0 across calls). -/
structure AsyncFsReader where
  content : List Nat
  pos : Nat
  bufCap : Nat
deriving DecidableEq, Repr

/-- Source `oio::Read::read` for `AsyncFsReader`: reserve capacity up to
`limit`, build a `ReadBuf` over the spare capacity, `assume_init(limit)`
so the slice handed to the underlying read has length exactly `limit`,
perform one underlying read, `set_filled(n)`, and copy out exactly the
filled region. On failure the error is tagged with operation `Read` and
a `source` context. -/
def readerRead (ur : Nat → Except IoError Nat) (r : AsyncFsReader) (limit : Nat) :
    Except Err (List Nat) × AsyncFsReader :=
  let cap := if r.bufCap < limit then limit else r.bufCap
  match ur limit with
  | .error e =>
      (.error (((new_std_io_error e).with_operation "Read").with_context
        "source" "AsyncFileReader"),
       { r with bufCap := cap })
  | .ok n =>
      (.ok ((r.content.drop r.pos).take n),
       { r with pos := r.pos + n, bufCap := cap })

/-- The contract of the underlying `read` into a slice of length `len`
at offset `r.pos` of a regular file: at most `len` bytes, at most the
remaining bytes, and zero bytes only for an empty slice or at
end-of-file. -/
def UReadValid (ur : Nat → Except IoError Nat) (r : AsyncFsReader) : Prop :=
  ∀ len n, ur len = .ok n →
    n ≤ len ∧ n ≤ r.content.length - r.pos ∧
    (n = 0 → len = 0 ∨ r.content.length ≤ r.pos)

/-! ## `nucleifs` lister (`AsyncFsLister`)

A native `ReadDir` item is an I/O error or a directory entry; an entry
carries its file-name component (its path is the root joined with that
name, so stripping the root prefix yields the name) and the outcome of
`file_type()`. The host platform's `MAIN_SEPARATOR` is the `sep`
parameter. -/

/-- File-type classification of a native directory entry. -/
inductive FileType
  | file
  | dir
  | other
deriving DecidableEq, Repr

/-- A native directory entry (`std::fs::DirEntry`): its file-name
component and its `file_type()` outcome. -/
structure RawDirEntry where
  name : String
  fileTypeRes : Except IoError FileType
deriving DecidableEq, Repr

/-- The lister handle: configured root and the not-yet-consumed items
of the native `ReadDir` iterator. -/
structure AsyncFsLister where
  root : String
  rd : List (Except IoError RawDirEntry)
deriving DecidableEq, Repr

/-- Entry mode (`EntryMode`). -/
inductive EntryMode
  | FILE
  | DIR
  | Unknown
deriving DecidableEq, Repr

/-- A normalized listing entry (`oio::Entry`: path plus metadata
mode). -/
structure Entry where
  path : String
  mode : EntryMode
deriving DecidableEq, Repr

/-- Modelled from the spec: the path normalization utility
(`crate::raw::normalize_path`) is not among the provided sources; the
spec consumes it as a pure function producing canonical relative paths,
so it is modelled as the identity on the already-relative path it
receives. -/
def normalize_path (p : String) : String := p

/-- Source `.replace('\\', std::path::MAIN_SEPARATOR_STR)`: every backslash
character becomes the host's main separator (a one-character string). -/
def replaceBackslash (sep : Char) (s : String) : String :=
  String.mk (s.data.map (fun c => if c = '\\' then sep else c))

/-- The relative path the lister computes for a native entry: strip the
root prefix (leaving the file-name component), replace every backslash
with the host separator, and normalize. -/
def relPathOf (sep : Char) (de : RawDirEntry) : String :=
  normalize_path (replaceBackslash sep de.name)

/-- Classification shared by both lister variants: files keep the
relative path with mode `FILE`; directories get one host separator
appended with mode `DIR`; anything else keeps the relative path with
mode `Unknown`. -/
def classifyEntry (sep : Char) (rel : String) (ft : FileType) : Entry :=
  match ft with
  | .file => { path := rel, mode := .FILE }
  | .dir => { path := rel ++ String.mk [sep], mode := .DIR }
  | .other => { path := rel, mode := .Unknown }

/-- Source `oio::List::next` for `AsyncFsLister` (via `AsyncFsLister::lister`):
take the next native item, resolve `file_type()`, then compute the
relative path and classify. -/
def listerNextAsync (sep : Char) (l : AsyncFsLister) :
    Except Err (Option Entry) × AsyncFsLister :=
  match l.rd with
  | [] => (.ok none, l)
  | item :: rest =>
    let l' : AsyncFsLister := { l with rd := rest }
    match item with
    | .error e => (.error (new_std_io_error e), l')
    | .ok de =>
      match de.fileTypeRes with
      | .error e => (.error (new_std_io_error e), l')
      | .ok ft => (.ok (some (classifyEntry sep (relPathOf sep de) ft)), l')

/-- Source `oio::BlockingList::next` for `AsyncFsLister`: same logic, with the
relative path computed before `file_type()` is resolved. -/
def listerNextBlocking (sep : Char) (l : AsyncFsLister) :
    Except Err (Option Entry) × AsyncFsLister :=
  match l.rd with
  | [] => (.ok none, l)
  | item :: rest =>
    let l' : AsyncFsLister := { l with rd := rest }
    match item with
    | .error e => (.error (new_std_io_error e), l')
    | .ok de =>
      let rel := relPathOf sep de
      match de.fileTypeRes with
      | .error e => (.error (new_std_io_error e), l')
      | .ok ft => (.ok (some (classifyEntry sep rel ft)), l')

/-- The layer's canonical path separator (spec: "the layer's canonical
path separator regardless of host platform"). -/
def canonicalSep : Char := '/'

/-! ## `gcs` writer (`GcsWriter`)

`write` builds one insert request, signs it, sends it, and inspects the
response; `append` always fails; `close` is a no-op. Request building,
signing, sending and response-body consumption are external, so their
outcomes come from `GEnv`; the functions also return the list of
requests actually sent. -/

/-- An insert/PUT request as built by `gcs_insert_object_request`:
target path, payload length, content-type hint. -/
structure GcsRequest where
  path : String
  contentLength : Nat
  contentType : Option String
deriving DecidableEq, Repr

/-- An HTTP response: status code, the outcome of consuming its body,
and the outcome of `parse_error` on it. -/
structure HttpResponse where
  status : Nat
  consumeRes : Except Err Unit
  parseRes : Except Err Err

/-- External outcomes for one `GcsWriter::write` call. -/
structure GEnv where
  buildRes : Except Err Unit
  signRes : Except Err Unit
  sendRes : Except Err HttpResponse

/-- Source `StatusCode::CREATED`. -/
def statusCREATED : Nat := 201

/-- Source `StatusCode::OK`. -/
def statusOK : Nat := 200

/-- Source `oio::Write::write` for `GcsWriter`: build, sign and send one
insert request; on status `CREATED` or `OK` consume the body and return
`Ok`, otherwise return the parsed backend error (or the parser's own
failure). Also returns the requests sent. -/
def gcsWrite (env : GEnv) (path : String) (contentType : Option String) (bs : List Nat) :
    Except Err Unit × List GcsRequest :=
  match env.buildRes with
  | .error e => (.error e, [])
  | .ok _ =>
    match env.signRes with
    | .error e => (.error e, [])
    | .ok _ =>
      let req : GcsRequest := { path := path, contentLength := bs.length, contentType := contentType }
      match env.sendRes with
      | .error e => (.error e, [req])
      | .ok resp =>
        if resp.status = statusCREATED ∨ resp.status = statusOK then
          match resp.consumeRes with
          | .error e => (.error e, [req])
          | .ok _ => (.ok (), [req])
        else
          match resp.parseRes with
          | .error e => (.error e, [req])
          | .ok parsed => (.error parsed, [req])

/-- Source `oio::Write::append` for `GcsWriter`: discards its input and fails
with `Unsupported`; no request is built or sent. -/
def gcsAppend (env : GEnv) (bs : List Nat) : Except Err Unit × List GcsRequest :=
  (.error { kind := .Unsupported, message := "output writer doesn't support append" }, [])

/-! ## Auxiliary definitions and concrete fixtures -/

/-- Whether a call's result is an error. -/
def resultFailed {α : Type} (r : Except Err α) : Bool :=
  match r with
  | .error _ => true
  | .ok _ => false

/-- The error the non-success branch of `GcsWriter::write` produces:
the parsed backend error, or the parser's own failure. -/
def parsedOutcome (resp : HttpResponse) : Err :=
  match resp.parseRes with
  | .error e => e
  | .ok parsed => parsed

/-- The error `abort` returns when no staging path is configured. -/
def abortUnsupportedErr : Err :=
  { kind := .Unsupported,
    message := "NucleiFs doesn't support abort if atomic_write_dir is not set" }

/-- A writer handle with a staging path configured (atomic-commit
mode). -/
def wAtomic : AsyncFsWriter := { target_path := "target", tmp_path := some "stage" }

/-- A writer handle without a staging path. -/
def wDirect : AsyncFsWriter := { target_path := "target", tmp_path := none }

/-- All primitives succeed; the underlying write accepts every byte. -/
def envOk : WEnv :=
  { flushRes := none, syncRes := none, renameRes := none, removeRes := none,
    writeRes := fun l => .ok l }

/-- Like `envOk` but `sync_all` fails. -/
def envSyncFail : WEnv := { envOk with syncRes := some ⟨3⟩ }

/-- Like `envOk` but `rename` fails. -/
def envRenameFail : WEnv := { envOk with renameRes := some ⟨5⟩ }

/-- Like `envOk` but `remove_file` fails. -/
def envRemoveFail : WEnv := { envOk with removeRes := some ⟨4⟩ }

/-- Like `envOk` but the underlying write is short: it accepts at most
one byte per call. -/
def envShortWrite : WEnv := { envOk with writeRes := fun l => .ok (min 1 l) }

/-- Empty staging file present, no target, nothing buffered. -/
def fs0 : FsState := { tmp := some [], target := none, buffered := [] }

/-- Empty staging file present, no target, one unflushed byte. -/
def fs7 : FsState := { tmp := some [], target := none, buffered := [7] }

/-- An underlying read that yields at most two bytes. -/
def urTwo : Nat → Except IoError Nat := fun len => .ok (min len 2)

/-- An underlying read that always fails. -/
def urFail : Nat → Except IoError Nat := fun _ => .error ⟨7⟩

/-- A reader over three bytes, positioned after the first. -/
def rW : AsyncFsReader := { content := [9, 8, 7], pos := 1, bufCap := 0 }

/-- A native entry classified as a directory. -/
def deDir : RawDirEntry := { name := "sub", fileTypeRes := .ok .dir }

/-- A native entry classified as a regular file. -/
def deFile : RawDirEntry := { name := "a.txt", fileTypeRes := .ok .file }

/-- A native entry that is neither a regular file nor a directory. -/
def deOther : RawDirEntry := { name := "link0", fileTypeRes := .ok .other }

/-- A lister whose native iterator holds one directory entry. -/
def lDir : AsyncFsLister := { root := "root", rd := [.ok deDir] }

/-- A lister whose native iterator holds one non-file non-directory
entry. -/
def lOther : AsyncFsLister := { root := "root", rd := [.ok deOther] }

/-- A lister whose native iterator holds one file entry. -/
def lFile : AsyncFsLister := { root := "root", rd := [.ok deFile] }

/-- The error `GcsWriter::append` returns. -/
def appendUnsupportedErr : Err :=
  { kind := .Unsupported, message := "output writer doesn't support append" }

/-- A response with a success status whose body consumption fails. -/
def resp200Bad : HttpResponse :=
  { status := 200,
    consumeRes := .error { kind := .Unexpected, message := "consume failed" },
    parseRes := .ok { kind := .Parsed, message := "backend" } }

/-- A creation-status response whose body consumption succeeds. -/
def resp201 : HttpResponse :=
  { status := 201, consumeRes := .ok (),
    parseRes := .ok { kind := .Parsed, message := "backend" } }

/-- A server-error response. -/
def resp500 : HttpResponse :=
  { status := 500, consumeRes := .ok (),
    parseRes := .ok { kind := .Parsed, message := "backend" } }

/-- An environment whose send returns the given response. -/
def genvOf (r : HttpResponse) : GEnv :=
  { buildRes := .ok (), signRes := .ok (), sendRes := .ok r }

/-! ## Theorems -/

/-- C1 counterexample: with a staging path configured and every
primitive succeeding, the blocking variant of `close` performs only
sync and rename — the flush step required by the claim is absent. -/
theorem C1_blocking_close_skips_flush :
    (closeBlocking envOk wAtomic fs0).2.2 = [WStep.sync, WStep.rename] ∧
    [WStep.sync, WStep.rename] ≠ [WStep.flush, WStep.sync, WStep.rename] := by
  decide

/-- C1 (amended): with a staging path configured, the
suspension-capable `close` performs flush, then sync, then rename, in
this order; the blocking `close` performs sync then rename, omitting
the flush. -/
theorem C1_close_step_order (env : WEnv) (w : AsyncFsWriter) (s : FsState) (p : String)
    (hp : w.tmp_path = some p) (hf : env.flushRes = none) (hs : env.syncRes = none) :
    (closeAsync env w s).2.2 = [WStep.flush, WStep.sync, WStep.rename] ∧
    (closeBlocking env w s).2.2 = [WStep.sync, WStep.rename] := by
  unfold closeAsync closeBlocking
  rw [hf, hs, hp]
  cases env.renameRes <;> simp

/-- C1 witness: the amended order facts at a concrete handle, state and
all-success environment. -/
theorem C1_close_step_order_witness :
    (closeAsync envOk wAtomic fs0).2.2 = [WStep.flush, WStep.sync, WStep.rename] ∧
    (closeBlocking envOk wAtomic fs0).2.2 = [WStep.sync, WStep.rename] :=
  C1_close_step_order envOk wAtomic fs0 "stage" rfl rfl rfl

/-- C2: with a staging path configured and the staging file present, a
failing `close` — in either variant, whatever step failed — leaves the
staging file in existence and the target path's content unchanged. -/
theorem C2_close_failure_preserves (env : WEnv) (w : AsyncFsWriter) (s : FsState) (p : String)
    (hp : w.tmp_path = some p) (htmp : s.tmp.isSome = true) :
    (resultFailed (closeAsync env w s).1 = true →
      (closeAsync env w s).2.1.tmp.isSome = true ∧
      (closeAsync env w s).2.1.target = s.target) ∧
    (resultFailed (closeBlocking env w s).1 = true →
      (closeBlocking env w s).2.1.tmp.isSome = true ∧
      (closeBlocking env w s).2.1.target = s.target) := by
  unfold closeAsync closeBlocking
  cases hf : env.flushRes <;> cases hs : env.syncRes <;> cases hr : env.renameRes <;>
    simp [hp, resultFailed, flushStep, renameStep, htmp]

/-- C2 witness: a concrete sync failure on a concrete atomic handle. -/
theorem C2_close_failure_preserves_witness :
    (resultFailed (closeAsync envSyncFail wAtomic fs0).1 = true →
      (closeAsync envSyncFail wAtomic fs0).2.1.tmp.isSome = true ∧
      (closeAsync envSyncFail wAtomic fs0).2.1.target = fs0.target) ∧
    (resultFailed (closeBlocking envSyncFail wAtomic fs0).1 = true →
      (closeBlocking envSyncFail wAtomic fs0).2.1.tmp.isSome = true ∧
      (closeBlocking envSyncFail wAtomic fs0).2.1.target = fs0.target) :=
  C2_close_failure_preserves envSyncFail wAtomic fs0 "stage" rfl rfl

/-- C3: `abort` with a staging path attempts only the staging file's
removal — the target path's content is untouched and no rename, sync or
flush is performed — and on success the staging file is gone, while on
failure the state is unchanged; without a staging path `abort` returns
the `Unsupported` error and changes nothing. -/
theorem C3_abort_behavior (env : WEnv) (w : AsyncFsWriter) (s : FsState) :
    (∀ p, w.tmp_path = some p →
      (abortWriter env w s).2.1.target = s.target ∧
      (abortWriter env w s).2.2 = [WStep.removeFile] ∧
      ((abortWriter env w s).1 = .ok () →
        (abortWriter env w s).2.1 = { s with tmp := none }) ∧
      (resultFailed (abortWriter env w s).1 = true → (abortWriter env w s).2.1 = s)) ∧
    (w.tmp_path = none →
      (abortWriter env w s).1 = .error abortUnsupportedErr ∧
      (abortWriter env w s).2.1 = s ∧
      (abortWriter env w s).2.2 = []) := by
  constructor
  · intro p hp
    unfold abortWriter
    cases hr : env.removeRes <;> simp [hp, resultFailed]
  · intro hp
    unfold abortWriter
    simp [hp, abortUnsupportedErr]

/-- C3 witness: the abort facts at a concrete atomic handle (with a
failing removal) and at a concrete non-atomic handle. -/
theorem C3_abort_behavior_witness :
    ((abortWriter envRemoveFail wAtomic fs0).2.1.target = fs0.target ∧
      (abortWriter envRemoveFail wAtomic fs0).2.2 = [WStep.removeFile] ∧
      ((abortWriter envRemoveFail wAtomic fs0).1 = .ok () →
        (abortWriter envRemoveFail wAtomic fs0).2.1 = { fs0 with tmp := none }) ∧
      (resultFailed (abortWriter envRemoveFail wAtomic fs0).1 = true →
        (abortWriter envRemoveFail wAtomic fs0).2.1 = fs0)) ∧
    ((abortWriter envOk wDirect fs0).1 = .error abortUnsupportedErr ∧
      (abortWriter envOk wDirect fs0).2.1 = fs0 ∧
      (abortWriter envOk wDirect fs0).2.2 = []) :=
  ⟨(C3_abort_behavior envRemoveFail wAtomic fs0).1 "stage" rfl,
   (C3_abort_behavior envOk wDirect fs0).2 rfl⟩

/-- C4 counterexample: with an underlying write that accepts only one
byte, a two-byte `write` succeeds returning count 1, not the input
length 2 — the code forwards the single underlying write's count
without looping. -/
theorem C4_short_write :
    (writeAsync envShortWrite wAtomic fs0 [5, 6]).1 = .ok 1 ∧
    ([5, 6] : List Nat).length = 2 ∧ (1 : Nat) ≠ 2 := by
  decide

/-- C4 (amended): in both variants, a successful `write` returns
exactly the count the single underlying write reported, which is at
most the input length (equal to it only when the underlying write
accepts the whole buffer); the two variants are the same function. -/
theorem C4_write_count (env : WEnv) (w : AsyncFsWriter) (s : FsState) (bs : List Nat) (n : Nat)
    (hval : ∀ l m, env.writeRes l = .ok m → m ≤ l) :
    ((writeAsync env w s bs).1 = .ok n ↔ env.writeRes bs.length = .ok n) ∧
    ((writeAsync env w s bs).1 = .ok n → n ≤ bs.length) ∧
    writeBlocking env w s bs = writeAsync env w s bs := by
  unfold writeAsync writeBlocking
  cases h : env.writeRes bs.length with
  | error e => simp
  | ok m =>
    refine ⟨by simp, ?_, rfl⟩
    intro hmn
    have hm : m = n := by simpa using hmn
    exact hm ▸ hval bs.length m h

/-- C4 witness: with an underlying write accepting every byte, a
two-byte write returns count 2. -/
theorem C4_write_count_witness :
    ((writeAsync envOk wAtomic fs0 [5, 6]).1 = .ok 2 ↔ envOk.writeRes ([5, 6] : List Nat).length = .ok 2) ∧
    ((writeAsync envOk wAtomic fs0 [5, 6]).1 = .ok 2 → 2 ≤ ([5, 6] : List Nat).length) ∧
    writeBlocking envOk wAtomic fs0 [5, 6] = writeAsync envOk wAtomic fs0 [5, 6] :=
  C4_write_count envOk wAtomic fs0 [5, 6] 2
    (fun l m h => by simp [envOk] at h; omega)

/-- C5: under the contract of a single underlying read into the
`limit`-length initialized slice (at most `limit` bytes, at most the
remaining bytes, zero only for an empty slice or at end-of-file), a
reader `read(limit)` returns exactly the bytes that underlying read
produced — the `n` bytes at the current offset, never more than
`limit`, and zero bytes only when `limit = 0` or the stream is
exhausted — while an underlying failure surfaces as an error tagged
with operation `Read` and a `source` context. -/
theorem C5_reader_read (ur : Nat → Except IoError Nat) (r : AsyncFsReader) (limit : Nat)
    (hval : UReadValid ur r) :
    (∀ e, ur limit = .error e →
      (readerRead ur r limit).1 =
        .error (((new_std_io_error e).with_operation "Read").with_context
          "source" "AsyncFileReader")) ∧
    (∀ n, ur limit = .ok n →
      (readerRead ur r limit).1 = .ok ((r.content.drop r.pos).take n) ∧
      ((r.content.drop r.pos).take n).length = n ∧
      n ≤ limit ∧
      (n = 0 → limit = 0 ∨ r.content.length ≤ r.pos)) := by
  constructor
  · intro e he
    simp [readerRead, he]
  · intro n hn
    obtain ⟨h1, h2, h3⟩ := hval limit n hn
    refine ⟨by simp [readerRead, hn], ?_, h1, h3⟩
    simp only [List.length_take, List.length_drop]
    omega

/-- C5 witness: a concrete reader over `[9, 8, 7]` at offset 1 with an
underlying read yielding two bytes returns exactly `[8, 7]`; a failing
underlying read returns the tagged error. -/
theorem C5_reader_read_witness :
    (readerRead urTwo rW 5).1 = .ok [8, 7] ∧
    (2 : Nat) ≤ 5 ∧
    (readerRead urFail rW 5).1 =
      .error (((new_std_io_error ⟨7⟩).with_operation "Read").with_context
        "source" "AsyncFileReader") :=
  have hvalTwo : UReadValid urTwo rW := by
    intro len n h
    simp only [urTwo, Except.ok.injEq] at h
    subst h
    exact ⟨Nat.min_le_left _ _, Nat.min_le_right len 2,
      fun h0 => Or.inl (by omega)⟩
  have hvalFail : UReadValid urFail rW := by
    intro len n h
    simp [urFail] at h
  have h2 := (C5_reader_read urTwo rW 5 hvalTwo).2 2 rfl
  have h1 := (C5_reader_read urFail rW 5 hvalFail).1 ⟨7⟩ rfl
  ⟨h2.1, h2.2.2.1, h1⟩

/-- C6 counterexample: on a host whose main separator is a backslash,
the directory entry `sub` is yielded as `sub\` — the appended trailing
separator is the host's `MAIN_SEPARATOR`, not the layer's canonical
separator `/`. -/
theorem C6_dir_entry_host_separator :
    (listerNextAsync '\\' lDir).1 = .ok (some { path := "sub\\", mode := .DIR }) ∧
    ("sub\\" : String) ≠ "sub" ++ String.mk [canonicalSep] := by
  decide

/-- C6 (amended): for a native entry, both lister variants yield the
root-stripped relative path with backslashes replaced by the host
platform's main separator (which coincides with the canonical `/` only
on hosts where the main separator is `/`); file entries carry mode
`FILE` with no separator appended, and directory entries carry mode
`DIR` with exactly one host separator appended. -/
theorem C6_entry_normalization (sep : Char) (l : AsyncFsLister) (de : RawDirEntry)
    (rest : List (Except IoError RawDirEntry)) (hrd : l.rd = .ok de :: rest) :
    (de.fileTypeRes = .ok .file →
      (listerNextAsync sep l).1 = .ok (some { path := relPathOf sep de, mode := .FILE }) ∧
      (listerNextBlocking sep l).1 = .ok (some { path := relPathOf sep de, mode := .FILE })) ∧
    (de.fileTypeRes = .ok .dir →
      (listerNextAsync sep l).1 =
        .ok (some { path := relPathOf sep de ++ String.mk [sep], mode := .DIR }) ∧
      (listerNextBlocking sep l).1 =
        .ok (some { path := relPathOf sep de ++ String.mk [sep], mode := .DIR })) := by
  constructor <;> intro hft <;>
    simp [listerNextAsync, listerNextBlocking, hrd, hft, classifyEntry]

/-- C6 witness: on a host with separator `/`, the file `a.txt` is
yielded as `a.txt` with mode `FILE` and the directory `sub` as `sub/`
with mode `DIR`. -/
theorem C6_entry_normalization_witness :
    (listerNextAsync canonicalSep lFile).1 = .ok (some { path := "a.txt", mode := .FILE }) ∧
    (listerNextBlocking canonicalSep lDir).1 = .ok (some { path := "sub/", mode := .DIR }) :=
  ⟨((C6_entry_normalization canonicalSep lFile deFile [] rfl).1 rfl).1,
   ((C6_entry_normalization canonicalSep lDir deDir [] rfl).2 rfl).2⟩

/-- Helper: flushing is a no-op when nothing is buffered and the open
file exists. -/
theorem flushStep_id (w : AsyncFsWriter) (s : FsState) (hbuf : s.buffered = [])
    (hopen : (openFileOf w s).isSome = true) : flushStep w s = s := by
  unfold openFileOf at hopen
  unfold flushStep
  cases htp : w.tmp_path with
  | some p =>
    rw [htp] at hopen
    obtain ⟨c, hc⟩ := Option.isSome_iff_exists.mp hopen
    cases s
    simp_all
  | none =>
    rw [htp] at hopen
    obtain ⟨c, hc⟩ := Option.isSome_iff_exists.mp hopen
    cases s
    simp_all

/-- C7 counterexample: on the same handle state — staging file present,
one unflushed byte — and an all-success environment, the two `close`
variants leave different content at the target path, because only the
suspension-capable variant flushes before renaming. -/
theorem C7_close_variants_differ :
    (closeAsync envOk wAtomic fs7).2.1.target = some [7] ∧
    (closeBlocking envOk wAtomic fs7).2.1.target = some [] ∧
    (some [7] : Option (List Nat)) ≠ some [] := by
  decide

/-- C7 (amended): the two `write` variants are the same function, and
the two lister `next` variants are the same function, on every input;
the two `close` variants agree (same result, same backing-store state)
only when the handle has no unflushed bytes, the open file exists and
the flush succeeds — in general they differ by the omitted flush. -/
theorem C7_variant_equivalence (env : WEnv) :
    (∀ w s bs, writeBlocking env w s bs = writeAsync env w s bs) ∧
    (∀ sep l, listerNextBlocking sep l = listerNextAsync sep l) ∧
    (∀ w s, s.buffered = [] → (openFileOf w s).isSome = true → env.flushRes = none →
      (closeBlocking env w s).1 = (closeAsync env w s).1 ∧
      (closeBlocking env w s).2.1 = (closeAsync env w s).2.1) := by
  refine ⟨fun w s bs => rfl, fun sep l => ?_, fun w s hbuf hopen hf => ?_⟩
  · unfold listerNextAsync listerNextBlocking
    cases l.rd with
    | nil => rfl
    | cons item rest =>
      cases item with
      | error e => rfl
      | ok de => cases de.fileTypeRes <;> rfl
  · have hid := flushStep_id w s hbuf hopen
    unfold closeAsync closeBlocking
    rw [hf]
    simp only [hid]
    cases hs : env.syncRes <;> cases htp : w.tmp_path <;> simp <;>
      cases hr : env.renameRes <;> simp

/-- C7 witness: the equivalences at concrete inputs, including `close`
on a flushed handle. -/
theorem C7_variant_equivalence_witness :
    writeBlocking envOk wAtomic fs0 [5] = writeAsync envOk wAtomic fs0 [5] ∧
    listerNextBlocking canonicalSep lDir = listerNextAsync canonicalSep lDir ∧
    ((closeBlocking envOk wAtomic fs0).1 = (closeAsync envOk wAtomic fs0).1 ∧
      (closeBlocking envOk wAtomic fs0).2.1 = (closeAsync envOk wAtomic fs0).2.1) :=
  ⟨(C7_variant_equivalence envOk).1 wAtomic fs0 [5],
   (C7_variant_equivalence envOk).2.1 canonicalSep lDir,
   (C7_variant_equivalence envOk).2.2 wAtomic fs0 rfl rfl rfl⟩

/-- C8: for every environment and every input byte sequence, the
direct-overwrite writer's `append` fails with the `Unsupported` error
and sends no request. -/
theorem C8_gcs_append_unsupported (env : GEnv) (bs : List Nat) :
    gcsAppend env bs = (.error appendUnsupportedErr, []) ∧
    appendUnsupportedErr.kind = .Unsupported :=
  ⟨rfl, rfl⟩

/-- C9 counterexample: a response with success status 200 whose body
consumption fails makes `write` return an error, so success of the
write is not equivalent to the response carrying a success status. -/
theorem C9_consume_failure_breaks_iff :
    resp200Bad.status = statusOK ∧
    resultFailed (gcsWrite (genvOf resp200Bad) "p" none [1]).1 = true := by
  decide

/-- C9 (amended): once a response is received, `write` succeeds exactly
when the status is `CREATED` (201) or `OK` (200) and consuming the
response body succeeds; on any other status it returns the parsed
backend error (or the parser's own failure); exactly one insert request
carrying the payload length and content type is sent. -/
theorem C9_gcs_write_status (env : GEnv) (path : String) (ct : Option String)
    (bs : List Nat) (resp : HttpResponse)
    (hb : env.buildRes = .ok ()) (hs : env.signRes = .ok ()) (hr : env.sendRes = .ok resp) :
    ((gcsWrite env path ct bs).1 = .ok () ↔
      ((resp.status = statusCREATED ∨ resp.status = statusOK) ∧ resp.consumeRes = .ok ())) ∧
    (¬ (resp.status = statusCREATED ∨ resp.status = statusOK) →
      (gcsWrite env path ct bs).1 = .error (parsedOutcome resp)) ∧
    (gcsWrite env path ct bs).2 =
      [{ path := path, contentLength := bs.length, contentType := ct }] := by
  unfold gcsWrite parsedOutcome
  rw [hb, hs, hr]
  by_cases hst : resp.status = statusCREATED ∨ resp.status = statusOK
  · cases hc : resp.consumeRes <;> simp [hst, hc]
  · cases hp : resp.parseRes <;> simp [hst, hp]

/-- C9 witness: a 201 response with consumable body succeeds and sends
one request; a 500 response yields the parsed backend error. -/
theorem C9_gcs_write_status_witness :
    (gcsWrite (genvOf resp201) "p" (some "text/plain") [1, 2]).1 = .ok () ∧
    (gcsWrite (genvOf resp500) "p" none [1]).1 = .error (parsedOutcome resp500) ∧
    (gcsWrite (genvOf resp201) "p" (some "text/plain") [1, 2]).2 =
      [{ path := "p", contentLength := 2, contentType := some "text/plain" }] :=
  have h1 := C9_gcs_write_status (genvOf resp201) "p" (some "text/plain") [1, 2] resp201
    rfl rfl rfl
  have h2 := C9_gcs_write_status (genvOf resp500) "p" none [1] resp500 rfl rfl rfl
  ⟨h1.1.mpr (by decide), h2.2.1 (by decide), h1.2.2⟩

/-- C10: a native entry that is neither a regular file nor a directory
is yielded by both lister variants — not an error — with mode `Unknown`
and the relative path with no separator appended (the same path a file
entry would get). -/
theorem C10_unknown_entry (sep : Char) (l : AsyncFsLister) (de : RawDirEntry)
    (rest : List (Except IoError RawDirEntry))
    (hrd : l.rd = .ok de :: rest) (hft : de.fileTypeRes = .ok .other) :
    (listerNextAsync sep l).1 = .ok (some { path := relPathOf sep de, mode := .Unknown }) ∧
    (listerNextBlocking sep l).1 = .ok (some { path := relPathOf sep de, mode := .Unknown }) := by
  simp [listerNextAsync, listerNextBlocking, hrd, hft, classifyEntry]

/-- C10 witness: the entry `link0` of unknown type is yielded as
`link0` with mode `Unknown`; its path does not end with the
separator. -/
theorem C10_unknown_entry_witness :
    (listerNextAsync canonicalSep lOther).1 = .ok (some { path := "link0", mode := .Unknown }) ∧
    (listerNextBlocking canonicalSep lOther).1 =
      .ok (some { path := "link0", mode := .Unknown }) ∧
    ("link0" : String).data.getLast? = some '0' ∧ ('0' : Char) ≠ canonicalSep :=
  ⟨(C10_unknown_entry canonicalSep lOther deOther [] rfl rfl).1,
   (C10_unknown_entry canonicalSep lOther deOther [] rfl rfl).2,
   by decide, by decide⟩

end Spec2Proof
